import Mathlib

/-!
Shallow embedding of the Hatchmark registration-and-verification pipeline.

The definitions below are translated from the repository sources:
* `src/backend/src/handlers/ledger_handler.py` (registration / ledger write),
* `src/backend/src/handlers/duplicate_check_handler.py` (duplicate detector),
* `src/backend/src/handlers/verification_handler.py` (verification service),
* `src/watermarker/main.py` and `src/watermarker/main-new.py` (watermark workers),
* `src/backend/src/handlers/generate_presigned_url.py` (upload-key minting).

Fingerprints are modelled as natural numbers (the integer value of the hex
digest: both Python handlers compare hashes either as canonical hex strings of
a fixed width or as `int(h, 16)`, which coincide on canonical digests).
DynamoDB tables are modelled as lists of records in scan order; S3 buckets as
association lists from key to content; external pure primitives (the phash
function, the steganographic encoder) are function parameters, matching the
spec boundary that treats them as black-box pure functions.
-/

namespace Hatchmark

/-- Bit-population count with structural fuel (`fuel` bounds the number of
binary digits processed; any `fuel ≥ n` computes the true population count of
`n`). -/
def popCountAux : Nat → Nat → Nat
  | 0, _ => 0
  | fuel + 1, n => if n = 0 then 0 else n % 2 + popCountAux fuel (n / 2)

/-- Number of set bits of a natural number (bit-population count), used for
Hamming distance between equal-width fingerprints, as in
`bin(a ^ b).count('1')` in `verification_handler.py` and the subtraction of
`imagehash` hashes in `duplicate_check_handler.py`. -/
def popCount (n : Nat) : Nat := popCountAux n n

theorem popCountAux_zero (fuel : Nat) : popCountAux fuel 0 = 0 := by
  cases fuel <;> simp [popCountAux]

/-- Processing `n` with any sufficient fuel gives the same count. -/
theorem popCountAux_fuel : ∀ fuel₁ fuel₂ n : Nat, n ≤ fuel₁ → n ≤ fuel₂ →
    popCountAux fuel₁ n = popCountAux fuel₂ n := by
  intro fuel₁
  induction fuel₁ with
  | zero =>
    intro fuel₂ n h1 _
    have hn : n = 0 := Nat.le_zero.mp h1
    subst hn
    rw [popCountAux_zero, popCountAux_zero]
  | succ f ih =>
    intro fuel₂ n h1 h2
    cases n with
    | zero => rw [popCountAux_zero, popCountAux_zero]
    | succ m =>
      cases fuel₂ with
      | zero => omega
      | succ g =>
        simp only [popCountAux, if_neg (Nat.succ_ne_zero m)]
        have hlt : (m + 1) / 2 < m + 1 :=
          Nat.div_lt_self (Nat.succ_pos m) Nat.one_lt_two
        rw [ih g ((m + 1) / 2) (by omega) (by omega)]

/-- The recurrence the Python `bin(x).count('1')` satisfies. -/
theorem popCount_succ (n : Nat) :
    popCount (n + 1) = (n + 1) % 2 + popCount ((n + 1) / 2) := by
  show popCountAux (n + 1) (n + 1) = (n + 1) % 2 + popCountAux ((n + 1) / 2) ((n + 1) / 2)
  simp only [popCountAux, if_neg (Nat.succ_ne_zero n)]
  congr 1
  have hlt : (n + 1) / 2 < n + 1 :=
    Nat.div_lt_self (Nat.succ_pos n) Nat.one_lt_two
  exact popCountAux_fuel n ((n + 1) / 2) ((n + 1) / 2) (by omega) (Nat.le_refl _)

/-- Hamming distance of two fingerprints: population count of their XOR. -/
def hamming (a b : Nat) : Nat := popCount (a ^^^ b)

theorem hamming_self (a : Nat) : hamming a a = 0 := by
  simp [hamming, Nat.xor_self, popCount, popCountAux]

theorem hamming_pos_ne {a b : Nat} (h : 0 < hamming a b) : a ≠ b := by
  intro hab
  rw [hab, hamming_self] at h
  exact Nat.lt_irrefl 0 h

/-- A row of the assets table as read by the duplicate checker and the
verification handler (`assetId`, `perceptualHash`, `timestamp` projections). -/
structure DupAsset where
  assetId : String
  perceptualHash : Nat
  timestamp : String
deriving Repr, DecidableEq

/-- Result of the duplicate-check endpoint
(`duplicate_check_handler.lambda_handler` after hashing): either an exact
match (first item of the hash-index query), a similar match (first element of
the unsorted list accumulated by the threshold scan, together with the full
list of candidates and their Hamming distances), or no duplicate. -/
inductive DupCheckResult where
  | exactMatch (existing : DupAsset)
  | similarMatch (existing : DupAsset) (distance : Nat)
      (candidates : List (DupAsset × Nat))
  | noDuplicate
deriving Repr, DecidableEq

/-- The threshold scan of `duplicate_check_handler.py` (lines 71–95): walk the
table in scan order and keep every asset whose fingerprint is at Hamming
distance at most 5 from the query, in scan order, paired with its distance. -/
def similarCandidates (db : List DupAsset) (phash : Nat) : List (DupAsset × Nat) :=
  db.filterMap (fun a =>
    let d := hamming phash a.perceptualHash
    if d ≤ 5 then some (a, d) else none)

/-- Core decision of `duplicate_check_handler.lambda_handler`: exact
hash-index query first; if empty, the threshold scan; the reported existing
asset of the similar branch is `similar_assets[0]`, the first candidate in
scan order (the source performs no sort before indexing). -/
def dupCheckHandler (db : List DupAsset) (phash : Nat) : DupCheckResult :=
  match db.filter (fun a => a.perceptualHash = phash) with
  | e :: _ => .exactMatch e
  | [] =>
      match similarCandidates db phash with
      | s :: _ => .similarMatch s.1 s.2 (similarCandidates db phash)
      | [] => .noDuplicate

/-! ## Verification service (`verification_handler.py`) -/

/-- Body of a successful verification response: the fields of the JSON object
assembled by `verification_handler.lambda_handler` that the claims speak
about (`isAuthentic`, `confidence`, `matchType`, `assetId`, and the reported
Hamming distance of a similar match). -/
structure VerifyResult where
  isAuthentic : Bool
  confidence : ℚ
  matchType : String
  assetId : Option String
  hammingDistance : Option Nat
deriving Repr, DecidableEq

/-- HTTP-level verification response: status code plus (for 200 responses)
the verification body. Error responses carry no verification body. -/
structure VerifyResponse where
  statusCode : Nat
  result : Option VerifyResult
deriving Repr, DecidableEq

/-- One entry of the `similar_assets` list built by the verification scan:
the matched table row, its similarity `1 - d/256`, and its Hamming
distance `d`. -/
structure SimilarEntry where
  asset : DupAsset
  similarity : ℚ
  hammingDistance : Nat
deriving Repr, DecidableEq

/-- The verification scan (`verification_handler.py` lines 215–233): for every
stored row compute the Hamming distance `d` to the query, the similarity
`1 - d/256` (256-bit hash), and keep the rows with similarity strictly above
`0.85`, in scan order. -/
def verifySimilarEntries (db : List DupAsset) (q : Nat) : List SimilarEntry :=
  db.filterMap (fun item =>
    let d := hamming q item.perceptualHash
    let sim : ℚ := 1 - (d : ℚ) / 256
    if (85 : ℚ) / 100 < sim then some ⟨item, sim, d⟩ else none)

/-- Python `similar_assets.sort(key=..., reverse=True)`: stable sort by descending
similarity; the best match is the head of the sorted list. -/
def verifyRanked (db : List DupAsset) (q : Nat) : List SimilarEntry :=
  (verifySimilarEntries db q).mergeSort (fun x y => decide (y.similarity ≤ x.similarity))

/-- The "no matching asset found" 200 response (`isAuthentic: false`). -/
def verifyNoMatch : VerifyResponse :=
  ⟨200, some ⟨false, 0, "none", none, none⟩⟩

/-- Query-and-match core of `verification_handler.lambda_handler` (after the
query hash is computed): exact hash-index query first — a `ClientError` there
(`exactQueryFails`) is surfaced as a 500 — then the similarity scan, whose
exceptions (`scanFails`) are swallowed and fall through to the
"not authentic" 200 response. -/
def verifyHandler (db : List DupAsset) (q : Nat)
    (exactQueryFails scanFails : Bool) : VerifyResponse :=
  if exactQueryFails then ⟨500, none⟩
  else
    match db.filter (fun a => a.perceptualHash = q) with
    | e :: _ => ⟨200, some ⟨true, 1, "exact", some e.assetId, none⟩⟩
    | [] =>
        if scanFails then verifyNoMatch
        else
          match verifyRanked db q with
          | best :: _ =>
              ⟨200, some ⟨true, best.similarity, "similar",
                some best.asset.assetId, some best.hammingDistance⟩⟩
          | [] => verifyNoMatch

/-! ## Object keys and asset identifiers
(`generate_presigned_url.py`, `ledger_handler.py` lines 60–67) -/

/-- Python `str.split(sep)` for a one-character separator, on character
lists: splits at every occurrence, keeping empty segments, and yields one
segment even for the empty input. -/
def splitChar (sep : Char) : List Char → List (List Char)
  | [] => [[]]
  | c :: cs =>
      if c = sep then [] :: splitChar sep cs
      else
        match splitChar sep cs with
        | s :: rest => (c :: s) :: rest
        | [] => [[c]]

/-- Python `str.split('/')` on a character list. -/
def splitSlash (cs : List Char) : List (List Char) := splitChar '/' cs

/-- Python `object_key.split('/')[1]` under `try/except IndexError`
(`ledger_handler.py` lines 61–66): the second path segment when the key has
one, otherwise a freshly minted UUID. -/
def chosenAssetId (objectKey : String) (freshId : String) : String :=
  match (splitSlash objectKey.data).get? 1 with
  | some cs => String.mk cs
  | none => freshId

/-- Python `object_key.split('/')[-1]`: the final path segment. -/
def lastSegment (objectKey : String) : String :=
  match (splitSlash objectKey.data).getLast? with
  | some cs => String.mk cs
  | none => objectKey

/-- The object key minted by `generate_presigned_url.lambda_handler`
(line 130): `uploads/{uuid4()}/{filename}`. -/
def mkObjectKey (uniqueId filename : String) : String :=
  "uploads/" ++ uniqueId ++ "/" ++ filename

/-! ## Ledger store and registration (`ledger_handler.py`) -/

/-- An asset record as written by the ledger handler (the fields the claims
are about; the source item also carries filename, bucket and image
metadata). -/
structure AssetRecord where
  assetId : String
  perceptualHash : Nat
  timestamp : String
  status : String
  s3Key : String
deriving Repr, DecidableEq

/-- Outcome of the DynamoDB conditional `put_item`. -/
inductive PutOutcome where
  | inserted
  | conditionalCheckFailed
deriving Repr, DecidableEq

/-- DynamoDB `put_item(Item=item, ConditionExpression='attribute_not_exists(assetId)')`:
atomically insert the record unless one with the same `assetId` already
exists; on conflict the table is unchanged. -/
def putIfAbsent (db : List AssetRecord) (r : AssetRecord) :
    List AssetRecord × PutOutcome :=
  if db.any (fun x => x.assetId = r.assetId) then (db, .conditionalCheckFailed)
  else (db ++ [r], .inserted)

/-- DynamoDB `get_item(Key={'assetId': a})`: point lookup by primary key. -/
def getByAssetId (db : List AssetRecord) (a : String) : Option AssetRecord :=
  db.find? (fun r => r.assetId = a)

/-- The registration result dictionary returned by
`ledger_handler.lambda_handler` (the claim-relevant fields). -/
structure LedgerResult where
  assetId : String
  perceptualHash : Nat
  status : String
  timestamp : String
  isDuplicate : Bool
deriving Repr, DecidableEq

/-- Duplicate pre-check of the ledger handler (lines 70–93): query the
fingerprint index for the exact hash and, when non-empty, return the
`DUPLICATE_DETECTED` result built from the first existing item. A
`ClientError` during this query (`queryFails`) is caught and the handler
continues with registration as if the query had returned no items. -/
def regDupCheck (db : List AssetRecord) (hash : Nat) (queryFails : Bool) :
    Option LedgerResult :=
  if queryFails then none
  else
    match db.filter (fun r => r.perceptualHash = hash) with
    | e :: _ => some ⟨e.assetId, hash, "DUPLICATE_DETECTED", e.timestamp, true⟩
    | [] => none

/-- Insert phase of the ledger handler (lines 95–162): build the item and
attempt the conditional `put_item`. A non-conditional `ClientError`
(`putFails`) is re-raised; a `ConditionalCheckFailedException` fetches the
existing item and returns `ALREADY_EXISTS` (falling through to the
`REGISTERED` result when the fetched item is absent, as the source does). -/
def regInsert (db : List AssetRecord) (hash : Nat)
    (objectKey ts freshId : String) (putFails : Bool) :
    List AssetRecord × Except String LedgerResult :=
  let assetId := chosenAssetId objectKey freshId
  let item : AssetRecord := ⟨assetId, hash, ts, "REGISTERED", objectKey⟩
  if putFails then (db, .error "DynamoDB error")
  else
    match putIfAbsent db item with
    | (db2, .inserted) => (db2, .ok ⟨assetId, hash, "REGISTERED", ts, false⟩)
    | (db2, .conditionalCheckFailed) =>
        match getByAssetId db2 assetId with
        | some existing =>
            (db2, .ok ⟨assetId, existing.perceptualHash, "ALREADY_EXISTS",
              existing.timestamp, false⟩)
        | none => (db2, .ok ⟨assetId, hash, "REGISTERED", ts, false⟩)

/-- Core of `ledger_handler.lambda_handler` after hash extraction: duplicate
pre-check, then conditional insert. The two phases are separate store calls;
`ledgerHandler` is their sequential composition on one snapshot, and
interleaved registrations are modelled by running the phases of each
invocation against the evolving table. -/
def ledgerHandler (db : List AssetRecord) (hash : Nat)
    (objectKey ts freshId : String) (queryFails putFails : Bool) :
    List AssetRecord × Except String LedgerResult :=
  match regDupCheck db hash queryFails with
  | some r => (db, .ok r)
  | none => regInsert db hash objectKey ts freshId putFails

/-! ## Watermark workers (`src/watermarker/main.py`, `src/watermarker/main-new.py`)

Blob contents are modelled as natural numbers; the external pure primitives
(the steganographic encoder of `main.py` and the full numpy embedding pipeline
of `main-new.py`, whose only inputs are the source bytes and the asset id —
its PRNG is seeded from `sha256(asset_id)` alone) are function parameters
`Nat → String → Nat`. -/

/-- Model of `s3.put_object`: store `v` at key `k`, overwriting any existing object at
that key. -/
def putBlob : List (String × Nat) → String → Nat → List (String × Nat)
  | [], k, v => [(k, v)]
  | (k₁, v₁) :: rest, k, v =>
      if k₁ = k then (k, v) :: rest else (k₁, v₁) :: putBlob rest k v

/-- Model of `s3.get_object`: fetch the object at key `k`, if any. -/
def getBlob (store : List (String × Nat)) (k : String) : Option Nat :=
  (store.find? (fun p => p.1 = k)).map (·.2)

/-- Python `object_key.split('.')[-1] if '.' in object_key else dflt`: the file
extension chosen by both workers (default `'jpg'` in `main-new.py`, `'png'`
in `main.py`). -/
def fileExtension (objectKey : String) (dflt : String) : String :=
  if objectKey.data.contains '.' then
    match (splitChar '.' objectKey.data).getLast? with
    | some cs => String.mk cs
    | none => dflt
  else dflt

/-- The key `watermarked/{asset_id}.{file_extension}`: the destination key in the
processed bucket, a function of the asset id and the source key alone. -/
def outputKey (assetId objectKey dfltExt : String) : String :=
  "watermarked/" ++ assetId ++ "." ++ fileExtension objectKey dfltExt

/-- A row of the assets table as touched by the worker
(`update_asset_status`): status, last-update time, and the optional
error / watermarked-key attributes. -/
structure WRecord where
  assetId : String
  status : String
  lastUpdated : Nat
  errorInfo : Option String
  watermarkedKey : Option String
deriving Repr, DecidableEq

/-- DynamoDB `update_item` with `SET #status = ..., #updated = ...` plus the optional
additional fields: updates the named attributes of the matching row, leaving
unnamed attributes untouched, and upserts a fresh row when the key is
absent (DynamoDB `update_item` semantics). -/
def updateStatus : List WRecord → String → String → Nat →
    Option String → Option String → List WRecord
  | [], aid, s, t, err, wkey => [⟨aid, s, t, err, wkey⟩]
  | r :: rest, aid, s, t, err, wkey =>
      if r.assetId = aid then
        { r with
          status := s
          lastUpdated := t
          errorInfo := match err with | some m => some m | none => r.errorInfo
          watermarkedKey :=
            match wkey with | some k => some k | none => r.watermarkedKey } :: rest
      else r :: updateStatus rest aid s t err wkey

/-- Point lookup of a worker-table row by asset id. -/
def getWRecord (tbl : List WRecord) (aid : String) : Option WRecord :=
  tbl.find? (fun r => r.assetId = aid)

/-- A watermark job message (`assetId`, `bucket`, `objectKey`). -/
structure WatermarkJob where
  assetId : String
  bucket : String
  objectKey : String
deriving Repr, DecidableEq

/-- Worker-visible state: the ingestion bucket, the processed bucket, and the
assets table. -/
structure WorkerState where
  ingestion : List (String × Nat)
  processed : List (String × Nat)
  assets : List WRecord
deriving Repr, DecidableEq

/-- Model of `HatchmarkWatermarker.process_file` of `main-new.py` (lines 89–153)
followed by the acknowledge decision of `process_message` (lines 228–249):
mark `WATERMARKING`, download, embed, upload to the processed bucket,
mark `COMPLETED`; any failure (download miss, embed error when `embedOk` is
false, upload error when `uploadOk` is false) marks the record `FAILED` with
the error recorded and re-raises, so the message is not deleted. The returned
Boolean is whether the message was acknowledged (deleted). -/
def processFileNew (embed : Nat → String → Nat) (st : WorkerState)
    (job : WatermarkJob) (embedOk uploadOk : Bool) (t : Nat) :
    WorkerState × Bool :=
  let tbl1 := updateStatus st.assets job.assetId "WATERMARKING" t none none
  let fail := fun (msg : String) =>
    ({ st with assets := updateStatus tbl1 job.assetId "FAILED" t (some msg) none },
     false)
  match getBlob st.ingestion job.objectKey with
  | none => fail "download error"
  | some bytes =>
      if !embedOk then fail "embed error"
      else
        let watermarked := embed bytes job.assetId
        let key := outputKey job.assetId job.objectKey "jpg"
        if !uploadOk then fail "upload error"
        else
          ({ st with
              processed := putBlob st.processed key watermarked
              assets := updateStatus tbl1 job.assetId "COMPLETED" t none (some key) },
           true)

/-- Model of `apply_steganography_watermark` of `main.py` (lines 35–67): on any
encoder failure the exception is caught and the ORIGINAL image bytes are
returned as a fallback. -/
def applyStegWatermark (stegEncode : Nat → String → Nat) (encodeOk : Bool)
    (imageData : Nat) (assetId : String) : Nat :=
  if encodeOk then stegEncode imageData assetId else imageData

/-- Model of `HatchmarkWatermarker.process_file` of `main.py` (lines 69–117) followed
by the acknowledge decision of `process_message` (lines 192–213): download,
watermark with fallback, upload; no assets-table update is ever performed on
either path. The returned Boolean is whether the message was acknowledged. -/
def processFileMain (stegEncode : Nat → String → Nat) (st : WorkerState)
    (job : WatermarkJob) (encodeOk uploadOk : Bool) : WorkerState × Bool :=
  match getBlob st.ingestion job.objectKey with
  | none => (st, false)
  | some bytes =>
      let watermarked := applyStegWatermark stegEncode encodeOk bytes job.assetId
      let key := outputKey job.assetId job.objectKey "png"
      if !uploadOk then (st, false)
      else ({ st with processed := putBlob st.processed key watermarked }, true)

/-! ## Interleaved registrations (for the concurrency claims)

Each lambda invocation of the ledger handler performs two separate store
calls: the duplicate pre-check query and the conditional `put_item`.
`twoRegsRace` runs two invocations so that both pre-checks read the initial
table before either insert commits — a legal interleaving of two concurrent
registrations. -/

/-- Two registrations whose duplicate pre-checks both run against the initial
table, followed by the two conditional inserts in order. Returns the final
table and the two results. -/
def twoRegsRace (db : List AssetRecord) (h1 h2 : Nat)
    (key1 key2 ts1 ts2 fid1 fid2 : String) :
    List AssetRecord × Except String LedgerResult × Except String LedgerResult :=
  match regDupCheck db h1 false, regDupCheck db h2 false with
  | some r1, some r2 => (db, .ok r1, .ok r2)
  | some r1, none =>
      let (db2, o2) := regInsert db h2 key2 ts2 fid2 false
      (db2, .ok r1, o2)
  | none, some r2 =>
      let (db1, o1) := regInsert db h1 key1 ts1 fid1 false
      (db1, o1, .ok r2)
  | none, none =>
      let (db1, o1) := regInsert db h1 key1 ts1 fid1 false
      let (db2, o2) := regInsert db1 h2 key2 ts2 fid2 false
      (db2, o1, o2)

/-! ## Helper lemmas -/

theorem popCount_eq_zero : ∀ n : Nat, popCount n = 0 → n = 0 := by
  intro n
  induction n using Nat.strong_induction_on with
  | _ n ih =>
    match n with
    | 0 => intro _; rfl
    | m + 1 =>
      intro h
      rw [popCount_succ] at h
      have h1 : (m + 1) % 2 = 0 := Nat.eq_zero_of_add_eq_zero_right h
      have h2 : popCount ((m + 1) / 2) = 0 := Nat.eq_zero_of_add_eq_zero_left h
      have h3 : (m + 1) / 2 = 0 :=
        ih ((m + 1) / 2) (Nat.div_lt_self (Nat.succ_pos m) (by decide)) h2
      have h4 : m + 1 = 2 * ((m + 1) / 2) + (m + 1) % 2 :=
        (Nat.div_add_mod (m + 1) 2).symm ▸ by omega
      omega

theorem hamming_eq_zero {a b : Nat} (h : hamming a b = 0) : a = b := by
  have hx : a ^^^ b = 0 := popCount_eq_zero _ h
  have := congrArg (fun t => t ^^^ b) hx
  simpa [Nat.xor_assoc, Nat.xor_self, Nat.xor_zero, Nat.zero_xor] using this

theorem getWRecord_updateStatus_status (tbl : List WRecord)
    (aid s : String) (t : Nat) (err wkey : Option String) :
    (getWRecord (updateStatus tbl aid s t err wkey) aid).map (·.status) = some s := by
  induction tbl with
  | nil => simp [getWRecord, updateStatus, List.find?]
  | cons r rest ih =>
    by_cases hr : r.assetId = aid
    · simp [getWRecord, updateStatus, hr, List.find?]
    · simpa [getWRecord, updateStatus, hr, List.find?] using ih

theorem getWRecord_updateStatus_errorInfo (tbl : List WRecord)
    (aid s : String) (t : Nat) (m : String) (wkey : Option String) :
    (getWRecord (updateStatus tbl aid s t (some m) wkey) aid).map (·.errorInfo) =
      some (some m) := by
  induction tbl with
  | nil => simp [getWRecord, updateStatus, List.find?]
  | cons r rest ih =>
    by_cases hr : r.assetId = aid
    · simp [getWRecord, updateStatus, hr, List.find?]
    · simpa [getWRecord, updateStatus, hr, List.find?] using ih

theorem getBlob_putBlob (store : List (String × Nat)) (k : String) (v : Nat) :
    getBlob (putBlob store k v) k = some v := by
  induction store with
  | nil => simp [getBlob, putBlob, List.find?]
  | cons p rest ih =>
    by_cases hp : p.1 = k
    · simp [getBlob, putBlob, hp, List.find?]
    · simpa [getBlob, putBlob, hp, List.find?] using ih

theorem putBlob_putBlob (store : List (String × Nat)) (k : String) (v w : Nat) :
    putBlob (putBlob store k v) k w = putBlob store k w := by
  induction store with
  | nil => simp [putBlob]
  | cons p rest ih =>
    by_cases hp : p.1 = k
    · simp [putBlob, hp]
    · simp [putBlob, hp, ih]

theorem splitChar_ne_nil (sep : Char) (l : List Char) : splitChar sep l ≠ [] := by
  match l with
  | [] => simp [splitChar]
  | c :: cs =>
    by_cases hc : c = sep
    · simp [splitChar, hc]
    · simp only [splitChar, hc, if_neg hc]
      match splitChar sep cs with
      | s :: rest => simp
      | [] => simp

theorem splitChar_of_not_mem (sep : Char) (l : List Char) (h : sep ∉ l) :
    splitChar sep l = [l] := by
  induction l with
  | nil => rfl
  | cons c cs ih =>
    have hc : c ≠ sep := fun hcs => h (hcs ▸ List.mem_cons_self c cs)
    have hcs : sep ∉ cs := fun hm => h (List.mem_cons_of_mem c hm)
    simp [splitChar, hc, ih hcs]

theorem splitChar_append_sep (sep : Char) (l₁ l₂ : List Char) (h : sep ∉ l₁) :
    splitChar sep (l₁ ++ sep :: l₂) = l₁ :: splitChar sep l₂ := by
  induction l₁ with
  | nil => simp [splitChar]
  | cons c cs ih =>
    have hc : c ≠ sep := fun hcs => h (hcs ▸ List.mem_cons_self c cs)
    have hcs : sep ∉ cs := fun hm => h (List.mem_cons_of_mem c hm)
    simp [splitChar, hc, ih hcs]

theorem splitChar_length_ge_two (sep : Char) (l : List Char) (h : sep ∈ l) :
    2 ≤ (splitChar sep l).length := by
  induction l with
  | nil => cases h
  | cons c cs ih =>
    by_cases hc : c = sep
    · subst hc
      have hstep : splitChar c (c :: cs) = [] :: splitChar c cs := by
        simp [splitChar]
      rw [hstep]
      have h1 : 1 ≤ (splitChar c cs).length := by
        cases hcs : splitChar c cs with
        | nil => exact absurd hcs (splitChar_ne_nil c cs)
        | cons a as => simp
      simpa using h1
    · have hmem : sep ∈ cs := by
        cases h with
        | head => exact absurd rfl hc
        | tail _ hm => exact hm
      simp only [splitChar, if_neg hc]
      cases hcs : splitChar sep cs with
      | nil => exact absurd hcs (splitChar_ne_nil sep cs)
      | cons a as =>
        have := ih hmem
        rw [hcs] at this
        simpa using this

/-- Evaluation of a fully successful `main-new.py` worker run. -/
theorem processFileNew_success (embed : Nat → String → Nat) (st : WorkerState)
    (job : WatermarkJob) (bytes t : Nat)
    (hb : getBlob st.ingestion job.objectKey = some bytes) :
    processFileNew embed st job true true t =
      (⟨st.ingestion,
        putBlob st.processed (outputKey job.assetId job.objectKey "jpg")
          (embed bytes job.assetId),
        updateStatus (updateStatus st.assets job.assetId "WATERMARKING" t none none)
          job.assetId "COMPLETED" t none
          (some (outputKey job.assetId job.objectKey "jpg"))⟩, true) := by
  simp [processFileNew, hb]

/-- Evaluation of a `main-new.py` worker run whose upload step fails. -/
theorem processFileNew_upload_failure (embed : Nat → String → Nat)
    (st : WorkerState) (job : WatermarkJob) (bytes t : Nat)
    (hb : getBlob st.ingestion job.objectKey = some bytes) :
    processFileNew embed st job true false t =
      (⟨st.ingestion, st.processed,
        updateStatus (updateStatus st.assets job.assetId "WATERMARKING" t none none)
          job.assetId "FAILED" t (some "upload error") none⟩, false) := by
  simp [processFileNew, hb]

/-- Evaluation of a `main-new.py` worker run whose embed step fails. -/
theorem processFileNew_embed_failure (embed : Nat → String → Nat)
    (st : WorkerState) (job : WatermarkJob) (bytes t : Nat)
    (hb : getBlob st.ingestion job.objectKey = some bytes) :
    processFileNew embed st job false true t =
      (⟨st.ingestion, st.processed,
        updateStatus (updateStatus st.assets job.assetId "WATERMARKING" t none none)
          job.assetId "FAILED" t (some "embed error") none⟩, false) := by
  simp [processFileNew, hb]

/-! ## Claim theorems -/

/-- C7: calling the conditional ledger insert twice with the same `assetId`
returns the inserted outcome on the first call and the already-exists outcome
on the second (and, the state being unchanged, on every later) call, and the
record stored by the first call is never overwritten or modified: the ledger
state after the second call equals the state after the first. -/
theorem putIfAbsent_idempotent (db : List AssetRecord) (r r₂ : AssetRecord)
    (habs : db.any (fun x => x.assetId = r.assetId) = false)
    (hsame : r₂.assetId = r.assetId) :
    (putIfAbsent db r).2 = .inserted ∧
    (putIfAbsent (putIfAbsent db r).1 r₂).2 = .conditionalCheckFailed ∧
    (putIfAbsent (putIfAbsent db r).1 r₂).1 = (putIfAbsent db r).1 := by
  have hfst : putIfAbsent db r = (db ++ [r], .inserted) := by
    simp [putIfAbsent, habs]
  have hany : (db ++ [r]).any (fun x => x.assetId = r₂.assetId) = true := by
    simp [List.any_append, hsame]
  rw [hfst]
  refine ⟨rfl, ?_, ?_⟩ <;> simp [putIfAbsent, hany]

/-- C7 witness: concrete instantiation of `putIfAbsent_idempotent`. -/
theorem putIfAbsent_idempotent_spot :
    ([] : List AssetRecord).any
        (fun x => x.assetId = (⟨"a", 1, "t1", "REGISTERED", "k1"⟩ : AssetRecord).assetId) = false ∧
    (⟨"a", 2, "t2", "REGISTERED", "k2"⟩ : AssetRecord).assetId =
        (⟨"a", 1, "t1", "REGISTERED", "k1"⟩ : AssetRecord).assetId ∧
    ((putIfAbsent [] ⟨"a", 1, "t1", "REGISTERED", "k1"⟩).2 = .inserted ∧
     (putIfAbsent (putIfAbsent [] ⟨"a", 1, "t1", "REGISTERED", "k1"⟩).1
        ⟨"a", 2, "t2", "REGISTERED", "k2"⟩).2 = .conditionalCheckFailed ∧
     (putIfAbsent (putIfAbsent [] ⟨"a", 1, "t1", "REGISTERED", "k1"⟩).1
        ⟨"a", 2, "t2", "REGISTERED", "k2"⟩).1 =
       (putIfAbsent [] ⟨"a", 1, "t1", "REGISTERED", "k1"⟩).1) :=
  ⟨by decide, by decide,
   putIfAbsent_idempotent [] ⟨"a", 1, "t1", "REGISTERED", "k1"⟩
     ⟨"a", 2, "t2", "REGISTERED", "k2"⟩ (by decide) (by decide)⟩

/-- C2: on a query at Hamming distance 3 from the first stored fingerprint
and distance 1 from the second (scan order: distance 3 first), the duplicate
checker reports the FIRST candidate within threshold (distance 3) as the
existing asset, although a strictly closer candidate (distance 1) is in its
own candidate list — the scan never sorts, contradicting both the spec and
the source's own comment that the most similar asset is returned. -/
theorem dupCheck_returns_first_candidate_not_minimal :
    dupCheckHandler [⟨"A", 7, "tA"⟩, ⟨"B", 1, "tB"⟩] 0 =
      .similarMatch ⟨"A", 7, "tA"⟩ 3
        [(⟨"A", 7, "tA"⟩, 3), (⟨"B", 1, "tB"⟩, 1)] ∧
    (⟨"B", 1, "tB"⟩, 1) ∈ similarCandidates [⟨"A", 7, "tA"⟩, ⟨"B", 1, "tB"⟩] 0 ∧
    (1 : Nat) < 3 := by
  refine ⟨by decide, by decide, by decide⟩

/-- C1 counterexample: two registrations of byte-identical images (equal
fingerprint 42) with distinct upload keys, interleaved so that both duplicate
pre-checks read the table before either conditional insert commits, BOTH
return `REGISTERED`, and the final ledger holds two records with the same
fingerprint: the conditional insert guards `assetId`, not the fingerprint, so
it does not enforce the claimed invariant. -/
theorem race_two_identical_registrations_both_registered :
    (twoRegsRace [] 42 42 "uploads/a/x.jpg" "uploads/b/x.jpg"
        "t1" "t2" "f1" "f2").2.1 =
      .ok ⟨"a", 42, "REGISTERED", "t1", false⟩ ∧
    (twoRegsRace [] 42 42 "uploads/a/x.jpg" "uploads/b/x.jpg"
        "t1" "t2" "f1" "f2").2.2 =
      .ok ⟨"b", 42, "REGISTERED", "t2", false⟩ ∧
    ((twoRegsRace [] 42 42 "uploads/a/x.jpg" "uploads/b/x.jpg"
        "t1" "t2" "f1" "f2").1.filter
      (fun r => r.perceptualHash = 42)).length = 2 :=
  ⟨rfl, rfl, rfl⟩

/-- C1 (amended): the fingerprint-uniqueness guard is only the non-atomic
duplicate pre-check query, so deduplication of byte-identical images is
guaranteed only when the registrations do not interleave: run sequentially
against a ledger with no record of that fingerprint (and a free assetId for
the first key), the first registration returns `REGISTERED`, the second
returns `DUPLICATE_DETECTED` referencing the first record, inserts nothing,
and exactly one record with that fingerprint exists. -/
theorem sequential_identical_registrations_dedup (db : List AssetRecord)
    (h : Nat) (key1 key2 ts1 ts2 fid1 fid2 : String)
    (hnone : db.filter (fun r => r.perceptualHash = h) = [])
    (hfree : db.any (fun x => x.assetId = chosenAssetId key1 fid1) = false) :
    (ledgerHandler db h key1 ts1 fid1 false false).2 =
      .ok ⟨chosenAssetId key1 fid1, h, "REGISTERED", ts1, false⟩ ∧
    (ledgerHandler (ledgerHandler db h key1 ts1 fid1 false false).1
        h key2 ts2 fid2 false false).2 =
      .ok ⟨chosenAssetId key1 fid1, h, "DUPLICATE_DETECTED", ts1, true⟩ ∧
    (ledgerHandler (ledgerHandler db h key1 ts1 fid1 false false).1
        h key2 ts2 fid2 false false).1 =
      (ledgerHandler db h key1 ts1 fid1 false false).1 ∧
    ((ledgerHandler db h key1 ts1 fid1 false false).1.filter
        (fun r => r.perceptualHash = h)).length = 1 := by
  have h1 : ledgerHandler db h key1 ts1 fid1 false false =
      (db ++ [⟨chosenAssetId key1 fid1, h, ts1, "REGISTERED", key1⟩],
       .ok ⟨chosenAssetId key1 fid1, h, "REGISTERED", ts1, false⟩) := by
    simp [ledgerHandler, regDupCheck, hnone, regInsert, putIfAbsent, hfree]
  have hfil : (db ++ [(⟨chosenAssetId key1 fid1, h, ts1, "REGISTERED", key1⟩ :
      AssetRecord)]).filter (fun r => r.perceptualHash = h) =
      [⟨chosenAssetId key1 fid1, h, ts1, "REGISTERED", key1⟩] := by
    simp [List.filter_append, hnone]
  refine ⟨by rw [h1], ?_, ?_, ?_⟩
  · rw [h1]
    simp [ledgerHandler, regDupCheck, hfil]
  · rw [h1]
    simp [ledgerHandler, regDupCheck, hfil]
  · rw [h1]
    simp [hfil]

/-- C1 witness: concrete instantiation of
`sequential_identical_registrations_dedup`. -/
theorem sequential_identical_registrations_dedup_spot :
    ([] : List AssetRecord).filter (fun r => r.perceptualHash = 42) = [] ∧
    ([] : List AssetRecord).any
      (fun x => x.assetId = chosenAssetId "uploads/a/x.jpg" "f1") = false ∧
    ((ledgerHandler [] 42 "uploads/a/x.jpg" "t1" "f1" false false).2 =
      .ok ⟨chosenAssetId "uploads/a/x.jpg" "f1", 42, "REGISTERED", "t1", false⟩ ∧
    (ledgerHandler (ledgerHandler [] 42 "uploads/a/x.jpg" "t1" "f1" false false).1
        42 "uploads/b/x.jpg" "t2" "f2" false false).2 =
      .ok ⟨chosenAssetId "uploads/a/x.jpg" "f1", 42, "DUPLICATE_DETECTED", "t1", true⟩ ∧
    (ledgerHandler (ledgerHandler [] 42 "uploads/a/x.jpg" "t1" "f1" false false).1
        42 "uploads/b/x.jpg" "t2" "f2" false false).1 =
      (ledgerHandler [] 42 "uploads/a/x.jpg" "t1" "f1" false false).1 ∧
    ((ledgerHandler [] 42 "uploads/a/x.jpg" "t1" "f1" false false).1.filter
        (fun r => r.perceptualHash = 42)).length = 1) :=
  ⟨by decide, by decide,
   sequential_identical_registrations_dedup [] 42 "uploads/a/x.jpg"
     "uploads/b/x.jpg" "t1" "t2" "f1" "f2" (by decide) (by decide)⟩

/-- C3 counterexample: when the conditional insert loses the race (the
`assetId` extracted from the upload key already has a record), the handler
returns the status string `ALREADY_EXISTS` — not a `DUPLICATE_DETECTED`
outcome as the claim states (that status is produced only by the duplicate
pre-check), with `isDuplicate` set to `false`. -/
theorem race_loss_status_is_already_exists :
    ledgerHandler [⟨"a", 99, "t0", "REGISTERED", "k0"⟩] 42
        "uploads/a/x.jpg" "t1" "fid" false false =
      ([⟨"a", 99, "t0", "REGISTERED", "k0"⟩],
       .ok ⟨"a", 99, "ALREADY_EXISTS", "t0", false⟩) ∧
    "ALREADY_EXISTS" ≠ "DUPLICATE_DETECTED" :=
  ⟨rfl, by decide⟩

/-- C3 (amended): whenever the conditional insert reports that a record
already exists, the registration returns an `ALREADY_EXISTS` outcome
(`isDuplicate = false`) referencing the winning existing record (its stored
fingerprint and timestamp, under the contested `assetId`), and no new record
is created: the ledger state is unchanged. -/
theorem race_loss_returns_existing_record (db : List AssetRecord) (h : Nat)
    (key ts fid : String) (existing : AssetRecord)
    (hnodup : db.filter (fun r => r.perceptualHash = h) = [])
    (hex : getByAssetId db (chosenAssetId key fid) = some existing) :
    ledgerHandler db h key ts fid false false =
      (db, .ok ⟨chosenAssetId key fid, existing.perceptualHash,
        "ALREADY_EXISTS", existing.timestamp, false⟩) := by
  have hany : db.any (fun x => x.assetId = chosenAssetId key fid) = true := by
    rcases List.find?_some hex with hfind
    have hmem := List.mem_of_find?_eq_some hex
    simp only [List.any_eq_true]
    exact ⟨existing, hmem, hfind⟩
  simp [ledgerHandler, regDupCheck, hnodup, regInsert, putIfAbsent, hany, hex]

/-- C3 witness: concrete instantiation of `race_loss_returns_existing_record`. -/
theorem race_loss_returns_existing_record_spot :
    ([(⟨"a", 99, "t0", "REGISTERED", "k0"⟩ : AssetRecord)].filter
        (fun r => r.perceptualHash = 42) = []) ∧
    getByAssetId [⟨"a", 99, "t0", "REGISTERED", "k0"⟩]
        (chosenAssetId "uploads/a/x.jpg" "fid") =
      some ⟨"a", 99, "t0", "REGISTERED", "k0"⟩ ∧
    ledgerHandler [⟨"a", 99, "t0", "REGISTERED", "k0"⟩] 42
        "uploads/a/x.jpg" "t1" "fid" false false =
      ([⟨"a", 99, "t0", "REGISTERED", "k0"⟩],
       .ok ⟨chosenAssetId "uploads/a/x.jpg" "fid",
         (⟨"a", 99, "t0", "REGISTERED", "k0"⟩ : AssetRecord).perceptualHash,
         "ALREADY_EXISTS",
         (⟨"a", 99, "t0", "REGISTERED", "k0"⟩ : AssetRecord).timestamp, false⟩) :=
  ⟨by decide, by decide,
   race_loss_returns_existing_record [⟨"a", 99, "t0", "REGISTERED", "k0"⟩] 42
     "uploads/a/x.jpg" "t1" "fid" ⟨"a", 99, "t0", "REGISTERED", "k0"⟩
     (by decide) (by decide)⟩

/-- C8 counterexample: a transient ledger query failure during the duplicate
pre-check IS silently swallowed: with an identical fingerprint already in the
ledger, a registration whose pre-check query raises proceeds exactly as if
the lookup had returned an empty result — it inserts a second record with the
same fingerprint and reports `REGISTERED`, surfacing no error. -/
theorem precheck_query_failure_swallowed :
    ledgerHandler [⟨"w", 42, "t0", "REGISTERED", "k0"⟩] 42
        "uploads/x/f.jpg" "t1" "fid" true false =
      ([⟨"w", 42, "t0", "REGISTERED", "k0"⟩,
        ⟨"x", 42, "t1", "REGISTERED", "uploads/x/f.jpg"⟩],
       .ok ⟨"x", 42, "REGISTERED", "t1", false⟩) :=
  rfl

/-- C8 (amended): failures are surfaced selectively. A pre-check query error
makes registration behave exactly as if the lookup had returned empty (the
handler continues with the insert phase); a non-conditional insert error is
surfaced with the ledger unchanged; a verification exact-query error is
surfaced as a 500 response; and a verification similarity-scan error is
swallowed into the "not authentic" response. -/
theorem store_error_surfacing (db : List AssetRecord) (dbv : List DupAsset)
    (h q : Nat) (key ts fid : String) (sf pf : Bool)
    (hnoexact : dbv.filter (fun a => a.perceptualHash = q) = []) :
    ledgerHandler db h key ts fid true pf = regInsert db h key ts fid pf ∧
    regInsert db h key ts fid true = (db, .error "DynamoDB error") ∧
    verifyHandler dbv q true sf = ⟨500, none⟩ ∧
    verifyHandler dbv q false true = verifyNoMatch := by
  refine ⟨by simp [ledgerHandler, regDupCheck], by simp [regInsert],
    by simp [verifyHandler], ?_⟩
  simp [verifyHandler, hnoexact]

/-- C8 witness: concrete instantiation of `store_error_surfacing`. -/
theorem store_error_surfacing_spot :
    (([] : List DupAsset).filter (fun a => a.perceptualHash = 5) = []) ∧
    (ledgerHandler [] 7 "k" "t" "f" true false = regInsert [] 7 "k" "t" "f" false ∧
     regInsert [] 7 "k" "t" "f" true = ([], .error "DynamoDB error") ∧
     verifyHandler [] 5 true false = ⟨500, none⟩ ∧
     verifyHandler [] 5 false true = verifyNoMatch) :=
  ⟨by decide,
   store_error_surfacing [] [] 7 5 "k" "t" "f" false false (by decide)⟩

/-- C5 counterexample: the two query paths are not equivalent. For the same
query fingerprint and the same ledger content (one stored fingerprint at
Hamming distance 10), the Duplicate Detector reports no duplicate (its
threshold is distance ≤ 5), while the Verification Service reports the asset
as an authentic similar match (its threshold is similarity > 0.85 over a
256-bit width, i.e. distance ≤ 38). -/
theorem verify_and_dupcheck_disagree :
    dupCheckHandler [⟨"X", 1023, "tX"⟩] 0 = .noDuplicate ∧
    verifyHandler [⟨"X", 1023, "tX"⟩] 0 false false =
      ⟨200, some ⟨true, 123/128, "similar", some "X", some 10⟩⟩ := by
  constructor
  · decide
  · have hd : hamming 0 1023 = 10 := by decide
    have hcond : (85 : ℚ) / 100 < 1 - (10 : ℚ) / 256 := by norm_num
    have hent : verifySimilarEntries [⟨"X", 1023, "tX"⟩] 0 =
        [⟨⟨"X", 1023, "tX"⟩, 1 - (10 : ℚ) / 256, 10⟩] := by
      simp [verifySimilarEntries, hd, hcond]
    have hrank : verifyRanked [⟨"X", 1023, "tX"⟩] 0 =
        [⟨⟨"X", 1023, "tX"⟩, 1 - (10 : ℚ) / 256, 10⟩] := by
      rw [verifyRanked, hent, List.mergeSort_singleton]
    have hq : (1 : ℚ) - 10 / 256 = 123 / 128 := by norm_num
    have hres : verifyHandler [⟨"X", 1023, "tX"⟩] 0 false false =
        ⟨200, some ⟨true, 1 - (10 : ℚ) / 256, "similar", some "X", some 10⟩⟩ := by
      simp [verifyHandler, hrank]
    rw [hq] at hres
    exact hres

/-- C5 (amended): the two query paths agree only on the exact phase: when the
ledger holds a record whose fingerprint equals the query fingerprint, both
the Duplicate Detector and the Verification Service report the first such
record (the detector as an exact duplicate, verification as an exact
authentic match with confidence 1). Their approximate phases differ in hash
width, threshold and ranking, as the counterexample shows. -/
theorem verify_and_dupcheck_agree_on_exact (db : List DupAsset) (q : Nat)
    (e : DupAsset) (rest : List DupAsset)
    (hfil : db.filter (fun a => a.perceptualHash = q) = e :: rest) :
    dupCheckHandler db q = .exactMatch e ∧
    verifyHandler db q false false =
      ⟨200, some ⟨true, 1, "exact", some e.assetId, none⟩⟩ := by
  constructor <;> simp [dupCheckHandler, verifyHandler, hfil]

/-- C5 witness: concrete instantiation of
`verify_and_dupcheck_agree_on_exact`. -/
theorem verify_and_dupcheck_agree_on_exact_spot :
    ([(⟨"X", 5, "t"⟩ : DupAsset)].filter (fun a => a.perceptualHash = 5) =
      (⟨"X", 5, "t"⟩ : DupAsset) :: []) ∧
    (dupCheckHandler [⟨"X", 5, "t"⟩] 5 = .exactMatch ⟨"X", 5, "t"⟩ ∧
     verifyHandler [⟨"X", 5, "t"⟩] 5 false false =
       ⟨200, some ⟨true, 1, "exact",
         some (⟨"X", 5, "t"⟩ : DupAsset).assetId, none⟩⟩) :=
  ⟨by decide,
   verify_and_dupcheck_agree_on_exact [⟨"X", 5, "t"⟩] 5 ⟨"X", 5, "t"⟩ []
     (by decide)⟩

/-- C6: against a ledger holding one stored fingerprint at Hamming distance
`d ≤ 38` from the query (38 being the largest distance with similarity
strictly above 0.85 at the 256-bit hash width), verification reports the
asset authentic: with `matchType` exact and confidence 1 when `d = 0`, and
with `matchType` similar, confidence exactly `1 - d/256` (hence at least
`1 - 38/256`), when `0 < d`. -/
theorem verify_threshold_confidence (aid ts : String) (hstored q d : Nat)
    (hd : hamming q hstored = d) (hT : d ≤ 38) :
    (d = 0 → verifyHandler [⟨aid, hstored, ts⟩] q false false =
        ⟨200, some ⟨true, 1, "exact", some aid, none⟩⟩) ∧
    (0 < d → verifyHandler [⟨aid, hstored, ts⟩] q false false =
        ⟨200, some ⟨true, 1 - (d : ℚ) / 256, "similar", some aid, some d⟩⟩ ∧
      (1 : ℚ) - 38 / 256 ≤ 1 - (d : ℚ) / 256) := by
  constructor
  · intro h0
    subst h0
    have heq : q = hstored := hamming_eq_zero hd
    subst heq
    simp [verifyHandler]
  · intro hpos
    have hne : hstored ≠ q := by
      intro he
      rw [he, hamming_self] at hd
      omega
    have hdq : ((d : ℚ)) ≤ 38 := by exact_mod_cast hT
    have hcond : (85 : ℚ) / 100 < 1 - (d : ℚ) / 256 := by linarith
    have hfil : ([⟨aid, hstored, ts⟩] : List DupAsset).filter
        (fun a => a.perceptualHash = q) = [] := by
      simp [hne]
    have hent : verifySimilarEntries [⟨aid, hstored, ts⟩] q =
        [⟨⟨aid, hstored, ts⟩, 1 - (d : ℚ) / 256, d⟩] := by
      simp [verifySimilarEntries, hd, hcond]
    have hrank : verifyRanked [⟨aid, hstored, ts⟩] q =
        [⟨⟨aid, hstored, ts⟩, 1 - (d : ℚ) / 256, d⟩] := by
      rw [verifyRanked, hent, List.mergeSort_singleton]
    refine ⟨?_, by linarith⟩
    simp [verifyHandler, hfil, hrank]

/-- C6 witness: concrete instantiation of `verify_threshold_confidence` at
distance 3. -/
theorem verify_threshold_confidence_spot :
    hamming 0 7 = 3 ∧ 3 ≤ 38 ∧
    (((3 : Nat) = 0 → verifyHandler [⟨"A", 7, "t"⟩] 0 false false =
        ⟨200, some ⟨true, 1, "exact", some "A", none⟩⟩) ∧
     (0 < (3 : Nat) → verifyHandler [⟨"A", 7, "t"⟩] 0 false false =
        ⟨200, some ⟨true, 1 - ((3 : Nat) : ℚ) / 256, "similar", some "A", some 3⟩⟩ ∧
      (1 : ℚ) - 38 / 256 ≤ 1 - ((3 : Nat) : ℚ) / 256)) :=
  ⟨by decide, by decide,
   verify_threshold_confidence "A" "t" 7 0 3 (by decide) (by decide)⟩

/-- C4 counterexample: in the deployed worker (`main.py`), an embed failure
is NOT left unacknowledged and the record is never marked `FAILED`: the
failed embed is masked by falling back to the original bytes, the original
(un-watermarked) image is uploaded to the processed bucket, the message is
acknowledged, and the assets table is untouched. -/
theorem embed_failure_masked_in_main_worker :
    (processFileMain (fun b _ => b + 1)
        ⟨[("uploads/u1/a.png", 7)], [], [⟨"u1", "REGISTERED", 0, none, none⟩]⟩
        ⟨"u1", "ib", "uploads/u1/a.png"⟩ false true).2 = true ∧
    (processFileMain (fun b _ => b + 1)
        ⟨[("uploads/u1/a.png", 7)], [], [⟨"u1", "REGISTERED", 0, none, none⟩]⟩
        ⟨"u1", "ib", "uploads/u1/a.png"⟩ false true).1.assets =
      [⟨"u1", "REGISTERED", 0, none, none⟩] ∧
    getBlob (processFileMain (fun b _ => b + 1)
        ⟨[("uploads/u1/a.png", 7)], [], [⟨"u1", "REGISTERED", 0, none, none⟩]⟩
        ⟨"u1", "ib", "uploads/u1/a.png"⟩ false true).1.processed
      "watermarked/u1.png" = some 7 :=
  ⟨rfl, rfl, rfl⟩

/-- C4 (amended): in the rewritten worker (`main-new.py`), an embed failure
— and likewise an upload failure — marks the record `FAILED` with the error
recorded before the job is left unacknowledged, and a later successful retry
of the same job transitions the record out of `FAILED` to `COMPLETED` and
acknowledges the job. (In the deployed `main.py` worker, by contrast, embed
failures are masked and no status is ever written — see the
counterexample.) -/
theorem worker_failure_marks_failed_then_retry_completes
    (embed : Nat → String → Nat) (st : WorkerState) (job : WatermarkJob)
    (bytes : Nat) (t1 t2 : Nat)
    (hb : getBlob st.ingestion job.objectKey = some bytes) :
    ((processFileNew embed st job false true t1).2 = false ∧
     (getWRecord (processFileNew embed st job false true t1).1.assets
        job.assetId).map (·.status) = some "FAILED" ∧
     (getWRecord (processFileNew embed st job false true t1).1.assets
        job.assetId).map (·.errorInfo) = some (some "embed error") ∧
     (processFileNew embed (processFileNew embed st job false true t1).1
        job true true t2).2 = true ∧
     (getWRecord (processFileNew embed (processFileNew embed st job false true t1).1
        job true true t2).1.assets job.assetId).map (·.status) =
       some "COMPLETED") ∧
    ((processFileNew embed st job true false t1).2 = false ∧
     (getWRecord (processFileNew embed st job true false t1).1.assets
        job.assetId).map (·.status) = some "FAILED" ∧
     (getWRecord (processFileNew embed st job true false t1).1.assets
        job.assetId).map (·.errorInfo) = some (some "upload error") ∧
     (processFileNew embed (processFileNew embed st job true false t1).1
        job true true t2).2 = true ∧
     (getWRecord (processFileNew embed (processFileNew embed st job true false t1).1
        job true true t2).1.assets job.assetId).map (·.status) =
       some "COMPLETED") := by
  constructor
  · have h1 := processFileNew_embed_failure embed st job bytes t1 hb
    have hb2 : getBlob (processFileNew embed st job false true t1).1.ingestion
        job.objectKey = some bytes := by
      rw [h1]
      exact hb
    have h2 := processFileNew_success embed
      (processFileNew embed st job false true t1).1 job bytes t2 hb2
    refine ⟨by rw [h1], ?_, ?_, by rw [h2], ?_⟩
    · rw [h1]
      exact getWRecord_updateStatus_status _ _ _ _ _ _
    · rw [h1]
      exact getWRecord_updateStatus_errorInfo _ _ _ _ _ _
    · rw [h2]
      exact getWRecord_updateStatus_status _ _ _ _ _ _
  · have h1 := processFileNew_upload_failure embed st job bytes t1 hb
    have hb2 : getBlob (processFileNew embed st job true false t1).1.ingestion
        job.objectKey = some bytes := by
      rw [h1]
      exact hb
    have h2 := processFileNew_success embed
      (processFileNew embed st job true false t1).1 job bytes t2 hb2
    refine ⟨by rw [h1], ?_, ?_, by rw [h2], ?_⟩
    · rw [h1]
      exact getWRecord_updateStatus_status _ _ _ _ _ _
    · rw [h1]
      exact getWRecord_updateStatus_errorInfo _ _ _ _ _ _
    · rw [h2]
      exact getWRecord_updateStatus_status _ _ _ _ _ _

/-- C4 witness: concrete instantiation of
`worker_failure_marks_failed_then_retry_completes`. -/
theorem worker_failure_marks_failed_then_retry_completes_spot :
    getBlob ([("k1", 7)] :
        List (String × Nat)) (⟨"u1", "b", "k1"⟩ : WatermarkJob).objectKey = some 7 ∧
    (((processFileNew (fun b _ => b + 1) ⟨[("k1", 7)], [], []⟩
        ⟨"u1", "b", "k1"⟩ false true 1).2 = false ∧
      (getWRecord (processFileNew (fun b _ => b + 1) ⟨[("k1", 7)], [], []⟩
        ⟨"u1", "b", "k1"⟩ false true 1).1.assets
        (⟨"u1", "b", "k1"⟩ : WatermarkJob).assetId).map (·.status) = some "FAILED" ∧
      (getWRecord (processFileNew (fun b _ => b + 1) ⟨[("k1", 7)], [], []⟩
        ⟨"u1", "b", "k1"⟩ false true 1).1.assets
        (⟨"u1", "b", "k1"⟩ : WatermarkJob).assetId).map (·.errorInfo) =
       some (some "embed error") ∧
      (processFileNew (fun b _ => b + 1)
        (processFileNew (fun b _ => b + 1) ⟨[("k1", 7)], [], []⟩
          ⟨"u1", "b", "k1"⟩ false true 1).1
        ⟨"u1", "b", "k1"⟩ true true 2).2 = true ∧
      (getWRecord (processFileNew (fun b _ => b + 1)
        (processFileNew (fun b _ => b + 1) ⟨[("k1", 7)], [], []⟩
          ⟨"u1", "b", "k1"⟩ false true 1).1
        ⟨"u1", "b", "k1"⟩ true true 2).1.assets
        (⟨"u1", "b", "k1"⟩ : WatermarkJob).assetId).map (·.status) =
       some "COMPLETED") ∧
     ((processFileNew (fun b _ => b + 1) ⟨[("k1", 7)], [], []⟩
        ⟨"u1", "b", "k1"⟩ true false 1).2 = false ∧
      (getWRecord (processFileNew (fun b _ => b + 1) ⟨[("k1", 7)], [], []⟩
        ⟨"u1", "b", "k1"⟩ true false 1).1.assets
        (⟨"u1", "b", "k1"⟩ : WatermarkJob).assetId).map (·.status) = some "FAILED" ∧
      (getWRecord (processFileNew (fun b _ => b + 1) ⟨[("k1", 7)], [], []⟩
        ⟨"u1", "b", "k1"⟩ true false 1).1.assets
        (⟨"u1", "b", "k1"⟩ : WatermarkJob).assetId).map (·.errorInfo) =
       some (some "upload error") ∧
      (processFileNew (fun b _ => b + 1)
        (processFileNew (fun b _ => b + 1) ⟨[("k1", 7)], [], []⟩
          ⟨"u1", "b", "k1"⟩ true false 1).1
        ⟨"u1", "b", "k1"⟩ true true 2).2 = true ∧
      (getWRecord (processFileNew (fun b _ => b + 1)
        (processFileNew (fun b _ => b + 1) ⟨[("k1", 7)], [], []⟩
          ⟨"u1", "b", "k1"⟩ true false 1).1
        ⟨"u1", "b", "k1"⟩ true true 2).1.assets
        (⟨"u1", "b", "k1"⟩ : WatermarkJob).assetId).map (·.status) =
       some "COMPLETED")) :=
  ⟨rfl,
   worker_failure_marks_failed_then_retry_completes (fun b _ => b + 1)
     ⟨[("k1", 7)], [], []⟩ ⟨"u1", "b", "k1"⟩ 7 1 2 rfl⟩

/-- C9: running the `main-new.py` watermark step twice for the same job is
idempotent: both runs succeed, the destination key is the same function of
the asset id and source key, the processed bucket holds the embed output (a
function of the source bytes and the asset id) at that key after either run,
the second upload overwrites rather than appends (the processed bucket is
unchanged by the second run), and the record ends `COMPLETED`. -/
theorem watermark_step_idempotent (embed : Nat → String → Nat)
    (st : WorkerState) (job : WatermarkJob) (bytes : Nat) (t1 t2 : Nat)
    (hb : getBlob st.ingestion job.objectKey = some bytes) :
    (processFileNew embed st job true true t1).2 = true ∧
    (processFileNew embed (processFileNew embed st job true true t1).1
        job true true t2).2 = true ∧
    getBlob (processFileNew embed st job true true t1).1.processed
        (outputKey job.assetId job.objectKey "jpg") =
      some (embed bytes job.assetId) ∧
    (processFileNew embed (processFileNew embed st job true true t1).1
        job true true t2).1.processed =
      (processFileNew embed st job true true t1).1.processed ∧
    (getWRecord (processFileNew embed (processFileNew embed st job true true t1).1
        job true true t2).1.assets job.assetId).map (·.status) =
      some "COMPLETED" := by
  have h1 := processFileNew_success embed st job bytes t1 hb
  have hb2 : getBlob (processFileNew embed st job true true t1).1.ingestion
      job.objectKey = some bytes := by
    rw [h1]
    exact hb
  have h2 := processFileNew_success embed
    (processFileNew embed st job true true t1).1 job bytes t2 hb2
  refine ⟨by rw [h1], by rw [h2], ?_, ?_, ?_⟩
  · rw [h1]
    exact getBlob_putBlob _ _ _
  · rw [h2, h1]
    exact putBlob_putBlob _ _ _ _
  · rw [h2]
    exact getWRecord_updateStatus_status _ _ _ _ _ _

/-- C9 witness: concrete instantiation of `watermark_step_idempotent`. -/
theorem watermark_step_idempotent_spot :
    getBlob ([("k1", 7)] :
        List (String × Nat)) (⟨"u1", "b", "k1"⟩ : WatermarkJob).objectKey = some 7 ∧
    ((processFileNew (fun b _ => b + 1) ⟨[("k1", 7)], [], []⟩
        ⟨"u1", "b", "k1"⟩ true true 1).2 = true ∧
     (processFileNew (fun b _ => b + 1)
        (processFileNew (fun b _ => b + 1) ⟨[("k1", 7)], [], []⟩
          ⟨"u1", "b", "k1"⟩ true true 1).1 ⟨"u1", "b", "k1"⟩ true true 2).2 = true ∧
     getBlob (processFileNew (fun b _ => b + 1) ⟨[("k1", 7)], [], []⟩
        ⟨"u1", "b", "k1"⟩ true true 1).1.processed
        (outputKey (⟨"u1", "b", "k1"⟩ : WatermarkJob).assetId
          (⟨"u1", "b", "k1"⟩ : WatermarkJob).objectKey "jpg") =
       some ((fun b _ => b + 1) (7 : Nat) (⟨"u1", "b", "k1"⟩ : WatermarkJob).assetId) ∧
     (processFileNew (fun b _ => b + 1)
        (processFileNew (fun b _ => b + 1) ⟨[("k1", 7)], [], []⟩
          ⟨"u1", "b", "k1"⟩ true true 1).1 ⟨"u1", "b", "k1"⟩ true true 2).1.processed =
       (processFileNew (fun b _ => b + 1) ⟨[("k1", 7)], [], []⟩
          ⟨"u1", "b", "k1"⟩ true true 1).1.processed ∧
     (getWRecord (processFileNew (fun b _ => b + 1)
        (processFileNew (fun b _ => b + 1) ⟨[("k1", 7)], [], []⟩
          ⟨"u1", "b", "k1"⟩ true true 1).1 ⟨"u1", "b", "k1"⟩ true true 2).1.assets
        (⟨"u1", "b", "k1"⟩ : WatermarkJob).assetId).map (·.status) =
       some "COMPLETED") :=
  ⟨rfl,
   watermark_step_idempotent (fun b _ => b + 1) ⟨[("k1", 7)], [], []⟩
     ⟨"u1", "b", "k1"⟩ 7 1 2 rfl⟩

/-- C10: for an object key of the presigned-upload form
`uploads/{id}/{filename}` (the minted id containing no slash), the ledger
handler adopts `{id}` as the `assetId` — independently of the fresh UUID it
would otherwise mint, so re-invoking the ledger write for the same uploaded
object targets the same `assetId` — and it falls back to the fresh UUID
exactly when the key has no slash (hence no second path segment); whenever
the key has a slash, the chosen id is the second segment of the split. -/
theorem assetId_from_upload_key (uid fname fresh fresh₂ key f : String)
    (huid : '/' ∉ uid.data) :
    chosenAssetId (mkObjectKey uid fname) fresh = uid ∧
    chosenAssetId (mkObjectKey uid fname) fresh =
      chosenAssetId (mkObjectKey uid fname) fresh₂ ∧
    ('/' ∉ key.data → chosenAssetId key f = f) ∧
    ('/' ∈ key.data → ∃ cs, (splitSlash key.data).get? 1 = some cs ∧
        chosenAssetId key f = String.mk cs) := by
  have hdata : (mkObjectKey uid fname).data =
      "uploads".data ++ '/' :: (uid.data ++ '/' :: fname.data) := by
    show ("uploads/".data ++ uid.data ++ "/".data ++ fname.data) = _
    simp
  have hsplit : splitSlash (mkObjectKey uid fname).data =
      "uploads".data :: uid.data :: splitChar '/' fname.data := by
    rw [splitSlash, hdata,
      splitChar_append_sep '/' "uploads".data _ (by decide),
      splitChar_append_sep '/' uid.data _ huid]
  have hchosen : ∀ g : String, chosenAssetId (mkObjectKey uid fname) g = uid := by
    intro g
    rw [chosenAssetId, splitSlash] at *
    rw [show splitChar '/' (mkObjectKey uid fname).data =
        "uploads".data :: uid.data :: splitChar '/' fname.data from hsplit]
    rfl
  refine ⟨hchosen fresh, (hchosen fresh).trans (hchosen fresh₂).symm, ?_, ?_⟩
  · intro hno
    rw [chosenAssetId, splitSlash, splitChar_of_not_mem '/' key.data hno]
    rfl
  · intro hmem
    have hlen := splitChar_length_ge_two '/' key.data hmem
    match hsp : splitChar '/' key.data with
    | [] => rw [hsp] at hlen; simp at hlen
    | [a] => rw [hsp] at hlen; simp at hlen
    | a :: b :: t =>
        refine ⟨b, ?_, ?_⟩
        · rw [splitSlash, hsp]
          rfl
        · rw [chosenAssetId, splitSlash, hsp]
          rfl

/-- C10 witness: concrete instantiation of `assetId_from_upload_key`. -/
theorem assetId_from_upload_key_spot :
    ('/' : Char) ∉ "u1".data ∧
    (chosenAssetId (mkObjectKey "u1" "a.jpg") "fA" = "u1" ∧
     chosenAssetId (mkObjectKey "u1" "a.jpg") "fA" =
       chosenAssetId (mkObjectKey "u1" "a.jpg") "fB" ∧
     ('/' ∉ "noslash".data → chosenAssetId "noslash" "fC" = "fC") ∧
     ('/' ∈ "noslash".data → ∃ cs, (splitSlash "noslash".data).get? 1 = some cs ∧
        chosenAssetId "noslash" "fC" = String.mk cs)) :=
  ⟨by decide,
   assetId_from_upload_key "u1" "a.jpg" "fA" "fB" "noslash" "fC" (by decide)⟩

end Hatchmark
